import Mathlib

/-!
Verification of `email_validator.py` (COGNIFYZ LEVEL 1).

The Python module exposes a single pure function
`validate_email(email) -> tuple[bool, str]` that checks an email address
against practical rules (length limits, a character allow-list for the
local part, dot-separated domain labels, a TLD shape check).

Embedding choices:
* A Python `str` is modelled as `List Char` (a sequence of Unicode
  scalar values), and an arbitrary Python value handed to the function is
  `PyValue`: either a string or some non-string value (the code only ever
  inspects non-strings through `isinstance`, so non-strings are abstract,
  tagged by a `Nat` so that there are many of them).
* `str.strip()` is `pyStrip`, dropping Python's whitespace characters
  from both ends.
* `email.rsplit('@', 1)` is `rsplit1`, splitting at the last occurrence
  of the character.  (When the character does not occur, Python's
  destructuring assignment would raise; the code only calls it after
  establishing the count is exactly 1, so that case is unreachable and
  `rsplit1` may return anything there.)
* The two compiled regexes `_label_re` and `_tld_re` are translated to
  the boolean functions `labelMatch` and `tldMatch`.
* `repr(ch)` inside the f-string is `pyReprChar`, modelling Python's
  `repr` on the printable characters (quote around the character).
-/

/-- A Python value passed to `validate_email`: a string, or any
non-string value (abstract, only distinguishable by a tag). -/
inductive PyValue where
  | ofString (s : List Char) : PyValue
  | nonString (tag : Nat) : PyValue
deriving DecidableEq

/-- The Unicode code points stripped by Python's `str.strip()`
(characters for which `str.isspace()` holds). -/
def pyWhitespace : List Nat :=
  [9, 10, 11, 12, 13, 28, 29, 30, 31, 32, 133, 160, 5760,
   8192, 8193, 8194, 8195, 8196, 8197, 8198, 8199, 8200, 8201, 8202,
   8232, 8233, 8239, 8287, 12288]

/-- Whether `str.strip()` removes this character. -/
def pyIsSpace (c : Char) : Bool := pyWhitespace.contains c.toNat

/-- Model of `email.strip()`: drop whitespace from both ends. -/
def pyStrip (s : List Char) : List Char :=
  ((s.dropWhile pyIsSpace).reverse.dropWhile pyIsSpace).reverse

/-- Model of `email.rsplit('@', 1)` followed by the destructuring into
`(local, domain)`: split at the last occurrence of `c`.  The code calls
this only when `c` occurs exactly once; if `c` does not occur at all the
result is arbitrary (we return `(s, [])`). -/
def rsplit1 (c : Char) : List Char → List Char × List Char
  | [] => ([], [])
  | x :: rest =>
    if rest.contains c then
      let p := rsplit1 c rest
      (x :: p.1, p.2)
    else if x = c then
      ([], rest)
    else
      let p := rsplit1 c rest
      (x :: p.1, p.2)

/-- Model of `domain.split('.')`: Python's `str.split` on a single
separator character (`''.split('.') == ['']`, separators at the ends
produce empty pieces). -/
def splitOnChar (c : Char) : List Char → List (List Char)
  | [] => [[]]
  | x :: rest =>
    if x = c then
      [] :: splitOnChar c rest
    else
      match splitOnChar c rest with
      | [] => [[x]]
      | h :: t => (x :: h) :: t

/-- `local.startswith('.')` / first character test. -/
def headIsDot : List Char → Bool
  | [] => false
  | x :: _ => x = '.'

/-- `local.endswith('.')` / last character test. -/
def lastIsDot (l : List Char) : Bool := headIsDot l.reverse

/-- `'..' in s`: the string contains two consecutive dots. -/
def hasDoubleDot : List Char → Bool
  | [] => false
  | [_] => false
  | a :: b :: rest => (a = '.' && b = '.') || hasDoubleDot (b :: rest)

/-- The constant `_LOCAL_ALLOWED`: characters allowed in the unquoted
local part.  (`\x7b` and `\x7d` are the literal brace characters.) -/
def _LOCAL_ALLOWED : List Char :=
  ("abcdefghijklmnopqrstuvwxyz" ++
   "ABCDEFGHIJKLMNOPQRSTUVWXYZ" ++
   "0123456789" ++
   "!#$%&'*+/=?^_`\x7b|\x7d~.-").toList

/-- `ch in _LOCAL_ALLOWED`. -/
def localAllowed (c : Char) : Bool := _LOCAL_ALLOWED.contains c

/-- ASCII letter or digit, the class `[A-Za-z0-9]` of `_label_re`. -/
def isAlnumAscii (c : Char) : Bool :=
  (65 ≤ c.toNat && c.toNat ≤ 90) ||
  (97 ≤ c.toNat && c.toNat ≤ 122) ||
  (48 ≤ c.toNat && c.toNat ≤ 57)

/-- ASCII letter, the class `[A-Za-z]` of `_tld_re`. -/
def isAlphaAscii (c : Char) : Bool :=
  (65 ≤ c.toNat && c.toNat ≤ 90) || (97 ≤ c.toNat && c.toNat ≤ 122)

/-- ASCII digit `[0-9]`. -/
def isDigitAscii (c : Char) : Bool := 48 ≤ c.toNat && c.toNat ≤ 57

/-- The regex `_label_re = ^[A-Za-z0-9](?:[A-Za-z0-9-]{0,61}[A-Za-z0-9])?$`:
either a single letter/digit, or a letter/digit, then up to 61 interior
characters from `[A-Za-z0-9-]`, then a final letter/digit. -/
def labelMatch (l : List Char) : Bool :=
  match l with
  | [] => false
  | c :: rest =>
    isAlnumAscii c &&
      match rest with
      | [] => true
      | _ :: _ =>
        rest.length ≤ 62 &&
        isAlnumAscii (rest.getLastD c) &&
        rest.dropLast.all (fun x => isAlnumAscii x || x = '-')

/-- The regex `_tld_re = ^[A-Za-z]{2,63}$`. -/
def tldMatch (l : List Char) : Bool :=
  2 ≤ l.length && l.length ≤ 63 && l.all isAlphaAscii

/-- Python `repr(ch)` for the printable characters that reach the
f-string (a quote around the character). -/
def pyReprChar (c : Char) : String := "'" ++ c.toString ++ "'"

/-- The f-string `f"Invalid character in local part: {repr(ch)}"`. -/
def invalidCharMsg (c : Char) : String :=
  "Invalid character in local part: " ++ pyReprChar c

/-- The f-string for an over-long domain label. -/
def labelTooLongMsg (l : List Char) : String :=
  "Domain label '" ++ String.mk l ++ "' is too long (more than 63 chars)."

/-- The f-string for a label rejected by `_label_re`. -/
def badLabelMsg (l : List Char) : String :=
  "Invalid domain label: '" ++ String.mk l ++
    "'. Labels must start and end with letter or digit; internal chars may include hyphens."

/-- The f-string for a TLD rejected by `_tld_re`. -/
def tldMsg (l : List Char) : String :=
  "Top-level domain '" ++ String.mk l ++
    "' must be alphabetic and 2-63 characters long."

/-- The `for label in labels:` loop: returns the reason of the first
failing label, or `none` when every label passes. -/
def checkLabels : List (List Char) → Option String
  | [] => none
  | l :: rest =>
    if l = [] then
      some "Empty domain label (consecutive dots or leading/trailing dot)."
    else if 63 < l.length then
      some (labelTooLongMsg l)
    else if !(labelMatch l) then
      some (badLabelMsg l)
    else
      checkLabels rest

/-- The `for ch in local:` loop: the first character of the local part
outside `_LOCAL_ALLOWED`, if any. -/
def firstBadLocalChar (l : List Char) : Option Char :=
  l.find? (fun ch => !(localAllowed ch))

/-- `validate_email(email)`: the full validation routine, translated
check by check from `email_validator.py`. -/
def validate_email (v : PyValue) : Bool × String :=
  match v with
  | .nonString _ => (false, "Email must be a string.")
  | .ofString s =>
    let email := pyStrip s
    if email = [] then
      (false, "Email is empty after stripping whitespace.")
    else if 254 < email.length then
      (false, "Email is too long (more than 254 characters).")
    else if email.count '@' ≠ 1 then
      (false, "Email must contain exactly one '@' character.")
    else
      let locPart := (rsplit1 '@' email).1
      let domain := (rsplit1 '@' email).2
      if locPart = [] then
        (false, "Local part (before '@') is empty.")
      else if 64 < locPart.length then
        (false, "Local part is too long (more than 64 characters).")
      else if headIsDot locPart || lastIsDot locPart then
        (false, "Local part must not start or end with a dot.")
      else if hasDoubleDot locPart then
        (false, "Local part must not contain consecutive dots.")
      else
        match firstBadLocalChar locPart with
        | some ch => (false, invalidCharMsg ch)
        | none =>
          if domain = [] then
            (false, "Domain part (after '@') is empty.")
          else if 255 < domain.length then
            (false, "Domain part is too long (more than 255 characters).")
          else if headIsDot domain || lastIsDot domain then
            (false, "Domain must not start or end with a dot.")
          else if hasDoubleDot domain then
            (false, "Domain must not contain consecutive dots.")
          else
            let labels := splitOnChar '.' domain
            if labels.length < 2 then
              (false, "Domain should contain at least one dot (e.g., example.com).")
            else
              match checkLabels labels with
              | some reason => (false, reason)
              | none =>
                let tld := labels.getLastD []
                if !(tldMatch tld) then
                  (false, tldMsg tld)
                else
                  (true, "OK")

example : validate_email (.ofString "alice@example.com".toList) = (true, "OK") := by decide
example : validate_email (.ofString "user@example".toList) =
    (false, "Domain should contain at least one dot (e.g., example.com).") := by decide
example : validate_email (.ofString "a b@example.com".toList) =
    (false, invalidCharMsg ' ') := by decide
example : validate_email (.ofString "".toList) =
    (false, "Email is empty after stripping whitespace.") := by decide
example : validate_email (.ofString "user@example.c".toList) =
    (false, tldMsg ['c']) := by decide
example : validate_email (.ofString "user@-example.com".toList) =
    (false, badLabelMsg "-example".toList) := by decide
example : validate_email (.ofString "user@example..com".toList) =
    (false, "Domain must not contain consecutive dots.") := by decide
example : validate_email (.ofString "  alice@example.com  ".toList) = (true, "OK") := by decide

/-! ### String helper lemmas -/

/-- Appending strings appends their character data. -/
lemma data_append (a b : String) : (a ++ b).data = a.data ++ b.data := by
  cases a; cases b; rfl

/-- Two strings differing at an index inside the first's prefix are
distinct, whatever the suffix appended to the prefix. -/
lemma str_prefix_ne (a b t : String) (i : Nat) (h1 : i < a.data.length)
    (h2 : a.data[i]? ≠ t.data[i]?) : a ++ b ≠ t := by
  intro he
  apply h2
  rw [← he, data_append, List.getElem?_append_left h1]

/-- A three-part message `a ++ m ++ b` differs from `t` when the fixed
prefix `a` differs from `t` at some index. -/
lemma msg2_ne (a m b t : String) (i : Nat) (h1 : i < a.data.length)
    (h2 : a.data[i]? ≠ t.data[i]?) : a ++ m ++ b ≠ t := by
  rw [String.append_assoc]
  exact str_prefix_ne a (m ++ b) t i h1 h2

/-- A boolean that is not `false` is `true`. -/
lemma result_true_of_ne_false (b : Bool) (h : ¬ b = false) : b = true := by
  cases b
  · exact absurd rfl h
  · rfl

/-! ### Counting characters through `strip` -/

/-- `dropWhile` only removes characters satisfying `p`, so it preserves
the count of a character not satisfying `p`. -/
lemma count_dropWhile (p : Char → Bool) (c : Char) (hc : p c = false) :
    ∀ l : List Char, (l.dropWhile p).count c = l.count c := by
  intro l
  induction l with
  | nil => rfl
  | cons x rest ih =>
    rw [List.dropWhile_cons]
    by_cases hx : p x = true
    · have hxc : ¬ (x = c) := by
        intro h
        rw [h, hc] at hx
        exact Bool.noConfusion hx
      rw [if_pos hx, ih, List.count_cons]
      simp [hxc]
    · rw [if_neg hx]

/-- Stripping whitespace preserves the count of a non-whitespace
character. -/
lemma count_pyStrip (s : List Char) (c : Char) (hc : pyIsSpace c = false) :
    (pyStrip s).count c = s.count c := by
  unfold pyStrip
  rw [List.count_reverse, count_dropWhile pyIsSpace c hc, List.count_reverse,
      count_dropWhile pyIsSpace c hc]

/-- `'@'` is not whitespace, so `strip` never removes it. -/
lemma atSign_not_space : pyIsSpace '@' = false := by decide

/-- A character with count 1 occurs in the list. -/
lemma mem_of_count_eq_one (s : List Char) (c : Char) (h : s.count c = 1) :
    c ∈ s :=
  List.count_pos_iff.mp (by omega)

/-! ### `rsplit1` and `splitOnChar` -/

/-- Splitting at the last occurrence of `c` reconstructs the string:
`local ++ c :: domain = s`. -/
lemma rsplit1_eq (c : Char) : ∀ s : List Char, c ∈ s →
    (rsplit1 c s).1 ++ c :: (rsplit1 c s).2 = s := by
  intro s
  induction s with
  | nil => intro h; cases h
  | cons x rest ih =>
    intro h
    by_cases hr : rest.contains c
    · simp only [rsplit1, if_pos hr, List.cons_append]
      rw [ih (by simpa using hr)]
    · have hrm : c ∉ rest := by simpa using hr
      have hx : x = c := by
        rcases List.mem_cons.mp h with h1 | h2
        · exact h1.symm
        · exact absurd h2 hrm
      subst hx
      simp [rsplit1, hr, hrm]

/-- Length bookkeeping for `rsplit1`. -/
lemma rsplit1_length (c : Char) (s : List Char) (h : c ∈ s) :
    s.length = (rsplit1 c s).1.length + 1 + (rsplit1 c s).2.length := by
  have h0 := congrArg List.length (rsplit1_eq c s h)
  simp only [List.length_append, List.length_cons] at h0
  omega

/-- `split` produces one more piece than there are separators. -/
lemma splitOnChar_length (c : Char) :
    ∀ l : List Char, (splitOnChar c l).length = l.count c + 1 := by
  intro l
  induction l with
  | nil => rfl
  | cons x rest ih =>
    by_cases hx : x = c
    · simp only [splitOnChar, if_pos hx, List.length_cons, ih, List.count_cons]
      simp [hx]
    · simp only [splitOnChar, if_neg hx]
      cases hs : splitOnChar c rest with
      | nil => rw [hs] at ih; simp at ih
      | cons hgroup t =>
        rw [hs] at ih
        simp only [List.length_cons] at ih ⊢
        rw [List.count_cons]
        simp only [ih]
        simp [hx]

/-! ### The reason strings of the failure branches -/

/-- The reason of the (unreachable) over-long-domain branch. -/
def domainTooLongReason : String :=
  "Domain part is too long (more than 255 characters)."

lemma invalidCharMsg_ne_OK (c : Char) : invalidCharMsg c ≠ "OK" := by
  simp only [invalidCharMsg]
  exact str_prefix_ne _ _ _ 0 (by decide) (by decide)

lemma invalidCharMsg_ne_domLong (c : Char) :
    invalidCharMsg c ≠ domainTooLongReason := by
  simp only [invalidCharMsg]
  exact str_prefix_ne _ _ _ 0 (by decide) (by decide)

lemma labelTooLongMsg_ne_OK (l : List Char) : labelTooLongMsg l ≠ "OK" := by
  simp only [labelTooLongMsg]
  exact msg2_ne _ _ _ _ 0 (by decide) (by decide)

lemma labelTooLongMsg_ne_domLong (l : List Char) :
    labelTooLongMsg l ≠ domainTooLongReason := by
  simp only [labelTooLongMsg]
  exact msg2_ne _ _ _ _ 7 (by decide) (by decide)

lemma badLabelMsg_ne_OK (l : List Char) : badLabelMsg l ≠ "OK" := by
  simp only [badLabelMsg]
  exact msg2_ne _ _ _ _ 0 (by decide) (by decide)

lemma badLabelMsg_ne_domLong (l : List Char) :
    badLabelMsg l ≠ domainTooLongReason := by
  simp only [badLabelMsg]
  exact msg2_ne _ _ _ _ 0 (by decide) (by decide)

lemma tldMsg_ne_OK (l : List Char) : tldMsg l ≠ "OK" := by
  simp only [tldMsg]
  exact msg2_ne _ _ _ _ 0 (by decide) (by decide)

lemma tldMsg_ne_domLong (l : List Char) :
    tldMsg l ≠ domainTooLongReason := by
  simp only [tldMsg]
  exact msg2_ne _ _ _ _ 0 (by decide) (by decide)

/-- Every reason produced by the label loop has one of three shapes. -/
lemma checkLabels_some_shape :
    ∀ (ls : List (List Char)) (r : String), checkLabels ls = some r →
      r = "Empty domain label (consecutive dots or leading/trailing dot)." ∨
      (∃ l, r = labelTooLongMsg l) ∨ (∃ l, r = badLabelMsg l) := by
  intro ls
  induction ls with
  | nil => intro r h; exact Option.noConfusion h
  | cons l rest ih =>
    intro r h
    simp only [checkLabels] at h
    split at h
    · left; exact (Option.some.inj h).symm
    · split at h
      · right; left; exact ⟨l, (Option.some.inj h).symm⟩
      · split at h
        · right; right; exact ⟨l, (Option.some.inj h).symm⟩
        · exact ih r h

lemma checkLabels_reason_ne_OK (ls : List (List Char)) (r : String)
    (h : checkLabels ls = some r) : r ≠ "OK" := by
  rcases checkLabels_some_shape ls r h with h1 | ⟨l, h2⟩ | ⟨l, h3⟩
  · rw [h1]; decide
  · rw [h2]; exact labelTooLongMsg_ne_OK l
  · rw [h3]; exact badLabelMsg_ne_OK l

lemma checkLabels_reason_ne_domLong (ls : List (List Char)) (r : String)
    (h : checkLabels ls = some r) : r ≠ domainTooLongReason := by
  rcases checkLabels_some_shape ls r h with h1 | ⟨l, h2⟩ | ⟨l, h3⟩
  · rw [h1]; decide
  · rw [h2]; exact labelTooLongMsg_ne_domLong l
  · rw [h3]; exact badLabelMsg_ne_domLong l

/-- Any input that reaches the domain-length check has a domain of at
most 252 characters: the whole (stripped) string is at most 254
characters and contains the `'@'` plus a non-empty local part. -/
lemma domain_length_le (s : List Char)
    (h2 : (pyStrip s).length ≤ 254)
    (h3 : (pyStrip s).count '@' = 1)
    (h4 : (rsplit1 '@' (pyStrip s)).1 ≠ []) :
    (rsplit1 '@' (pyStrip s)).2.length ≤ 252 := by
  have hm : '@' ∈ pyStrip s := mem_of_count_eq_one _ _ h3
  have hlen := rsplit1_length '@' (pyStrip s) hm
  have hp : 0 < (rsplit1 '@' (pyStrip s)).1.length := List.length_pos.mpr h4
  omega

/-! ### What a successful validation implies -/

/-- If validation succeeds, every check of the linear sequence passed:
the stripped input is non-empty, within the overall length bound, has
exactly one `'@'`, and the local part, domain, labels and TLD all pass
their checks. -/
lemma valid_implies (s : List Char)
    (h : (validate_email (.ofString s)).1 = true) :
    pyStrip s ≠ [] ∧
    (pyStrip s).length ≤ 254 ∧
    (pyStrip s).count '@' = 1 ∧
    (rsplit1 '@' (pyStrip s)).1 ≠ [] ∧
    (rsplit1 '@' (pyStrip s)).1.length ≤ 64 ∧
    headIsDot (rsplit1 '@' (pyStrip s)).1 = false ∧
    lastIsDot (rsplit1 '@' (pyStrip s)).1 = false ∧
    hasDoubleDot (rsplit1 '@' (pyStrip s)).1 = false ∧
    firstBadLocalChar (rsplit1 '@' (pyStrip s)).1 = none ∧
    (rsplit1 '@' (pyStrip s)).2 ≠ [] ∧
    headIsDot (rsplit1 '@' (pyStrip s)).2 = false ∧
    lastIsDot (rsplit1 '@' (pyStrip s)).2 = false ∧
    hasDoubleDot (rsplit1 '@' (pyStrip s)).2 = false ∧
    2 ≤ (splitOnChar '.' (rsplit1 '@' (pyStrip s)).2).length ∧
    checkLabels (splitOnChar '.' (rsplit1 '@' (pyStrip s)).2) = none ∧
    tldMatch ((splitOnChar '.' (rsplit1 '@' (pyStrip s)).2).getLastD []) = true := by
  simp only [validate_email] at h
  by_cases c1 : pyStrip s = []
  · rw [if_pos c1] at h; exact Bool.noConfusion h
  rw [if_neg c1] at h
  by_cases c2 : 254 < (pyStrip s).length
  · rw [if_pos c2] at h; exact Bool.noConfusion h
  rw [if_neg c2] at h
  by_cases c3 : (pyStrip s).count '@' ≠ 1
  · rw [if_pos c3] at h; exact Bool.noConfusion h
  rw [if_neg c3] at h
  by_cases c4 : (rsplit1 '@' (pyStrip s)).1 = []
  · rw [if_pos c4] at h; exact Bool.noConfusion h
  rw [if_neg c4] at h
  by_cases c5 : 64 < (rsplit1 '@' (pyStrip s)).1.length
  · rw [if_pos c5] at h; exact Bool.noConfusion h
  rw [if_neg c5] at h
  by_cases c6 : (headIsDot (rsplit1 '@' (pyStrip s)).1 ||
      lastIsDot (rsplit1 '@' (pyStrip s)).1) = true
  · rw [if_pos c6] at h; exact Bool.noConfusion h
  rw [if_neg c6] at h
  by_cases c7 : hasDoubleDot (rsplit1 '@' (pyStrip s)).1 = true
  · rw [if_pos c7] at h; exact Bool.noConfusion h
  rw [if_neg c7] at h
  cases hfb : firstBadLocalChar (rsplit1 '@' (pyStrip s)).1 with
  | some ch => rw [hfb] at h; exact Bool.noConfusion h
  | none =>
  simp only [hfb] at h
  by_cases c8 : (rsplit1 '@' (pyStrip s)).2 = []
  · rw [if_pos c8] at h; exact Bool.noConfusion h
  rw [if_neg c8] at h
  by_cases c9 : 255 < (rsplit1 '@' (pyStrip s)).2.length
  · rw [if_pos c9] at h; exact Bool.noConfusion h
  rw [if_neg c9] at h
  by_cases c10 : (headIsDot (rsplit1 '@' (pyStrip s)).2 ||
      lastIsDot (rsplit1 '@' (pyStrip s)).2) = true
  · rw [if_pos c10] at h; exact Bool.noConfusion h
  rw [if_neg c10] at h
  by_cases c11 : hasDoubleDot (rsplit1 '@' (pyStrip s)).2 = true
  · rw [if_pos c11] at h; exact Bool.noConfusion h
  rw [if_neg c11] at h
  by_cases c12 : (splitOnChar '.' (rsplit1 '@' (pyStrip s)).2).length < 2
  · rw [if_pos c12] at h; exact Bool.noConfusion h
  rw [if_neg c12] at h
  cases hcl : checkLabels (splitOnChar '.' (rsplit1 '@' (pyStrip s)).2) with
  | some r => rw [hcl] at h; exact Bool.noConfusion h
  | none =>
  simp only [hcl] at h
  by_cases c13 : (!(tldMatch
      ((splitOnChar '.' (rsplit1 '@' (pyStrip s)).2).getLastD []))) = true
  · rw [if_pos c13] at h; exact Bool.noConfusion h
  have h6 := Bool.or_eq_false_iff.mp (Bool.eq_false_iff.mpr c6)
  have h10 := Bool.or_eq_false_iff.mp (Bool.eq_false_iff.mpr c10)
  have h13 : tldMatch
      ((splitOnChar '.' (rsplit1 '@' (pyStrip s)).2).getLastD []) = true := by
    cases ht : tldMatch ((splitOnChar '.' (rsplit1 '@' (pyStrip s)).2).getLastD [])
    · exact absurd (by rw [ht]; rfl) c13
    · rfl
  exact ⟨c1, by omega, by omega, c4, by omega, h6.1, h6.2,
    Bool.eq_false_iff.mpr c7, rfl, c8, h10.1, h10.2,
    Bool.eq_false_iff.mpr c11, by omega, rfl, h13⟩

/-- Every run on a string either succeeds with `(True, "OK")` or fails
with a reason that is neither `"OK"` nor the over-long-domain reason
(whose branch is unreachable). -/
lemma result_cases (s : List Char) :
    validate_email (.ofString s) = (true, "OK") ∨
    ∃ r, validate_email (.ofString s) = (false, r) ∧
      r ≠ "OK" ∧ r ≠ domainTooLongReason := by
  simp only [validate_email]
  by_cases c1 : pyStrip s = []
  · exact Or.inr ⟨_, by rw [if_pos c1], by decide, by decide⟩
  rw [if_neg c1]
  by_cases c2 : 254 < (pyStrip s).length
  · exact Or.inr ⟨_, by rw [if_pos c2], by decide, by decide⟩
  rw [if_neg c2]
  by_cases c3 : (pyStrip s).count '@' ≠ 1
  · exact Or.inr ⟨_, by rw [if_pos c3], by decide, by decide⟩
  rw [if_neg c3]
  by_cases c4 : (rsplit1 '@' (pyStrip s)).1 = []
  · exact Or.inr ⟨_, by rw [if_pos c4], by decide, by decide⟩
  rw [if_neg c4]
  by_cases c5 : 64 < (rsplit1 '@' (pyStrip s)).1.length
  · exact Or.inr ⟨_, by rw [if_pos c5], by decide, by decide⟩
  rw [if_neg c5]
  by_cases c6 : (headIsDot (rsplit1 '@' (pyStrip s)).1 ||
      lastIsDot (rsplit1 '@' (pyStrip s)).1) = true
  · exact Or.inr ⟨_, by rw [if_pos c6], by decide, by decide⟩
  rw [if_neg c6]
  by_cases c7 : hasDoubleDot (rsplit1 '@' (pyStrip s)).1 = true
  · exact Or.inr ⟨_, by rw [if_pos c7], by decide, by decide⟩
  rw [if_neg c7]
  cases hfb : firstBadLocalChar (rsplit1 '@' (pyStrip s)).1 with
  | some ch =>
    exact Or.inr ⟨invalidCharMsg ch, rfl,
      invalidCharMsg_ne_OK ch, invalidCharMsg_ne_domLong ch⟩
  | none =>
  by_cases c8 : (rsplit1 '@' (pyStrip s)).2 = []
  · exact Or.inr ⟨_, by rw [if_pos c8], by decide, by decide⟩
  rw [if_neg c8]
  by_cases c9 : 255 < (rsplit1 '@' (pyStrip s)).2.length
  · exact absurd c9
      (by have := domain_length_le s (by omega) (by omega) c4; omega)
  rw [if_neg c9]
  by_cases c10 : (headIsDot (rsplit1 '@' (pyStrip s)).2 ||
      lastIsDot (rsplit1 '@' (pyStrip s)).2) = true
  · exact Or.inr ⟨_, by rw [if_pos c10], by decide, by decide⟩
  rw [if_neg c10]
  by_cases c11 : hasDoubleDot (rsplit1 '@' (pyStrip s)).2 = true
  · exact Or.inr ⟨_, by rw [if_pos c11], by decide, by decide⟩
  rw [if_neg c11]
  by_cases c12 : (splitOnChar '.' (rsplit1 '@' (pyStrip s)).2).length < 2
  · exact Or.inr ⟨_, by rw [if_pos c12], by decide, by decide⟩
  rw [if_neg c12]
  cases hcl : checkLabels (splitOnChar '.' (rsplit1 '@' (pyStrip s)).2) with
  | some r =>
    exact Or.inr ⟨r, rfl,
      checkLabels_reason_ne_OK _ r hcl, checkLabels_reason_ne_domLong _ r hcl⟩
  | none =>
  by_cases c13 : (!(tldMatch
      ((splitOnChar '.' (rsplit1 '@' (pyStrip s)).2).getLastD []))) = true
  · exact Or.inr ⟨_, by rw [if_pos c13], tldMsg_ne_OK _, tldMsg_ne_domLong _⟩
  rw [if_neg c13]
  exact Or.inl rfl

/-! ### Claims -/

/-- C1: for every input value `validate_email` terminates and returns a
structured `(boolean, reason)` pair (it is a total function on
`PyValue`), and every non-string input yields `Invalid` with the
wrong-type reason `"Email must be a string."`. -/
theorem C1_total_and_nonstring :
    (∀ v : PyValue, ∃ ok reason, validate_email v = (ok, reason)) ∧
    (∀ tag : Nat, validate_email (PyValue.nonString tag) =
      (false, "Email must be a string.")) := by
  constructor
  · intro v
    exact ⟨(validate_email v).1, (validate_email v).2, rfl⟩
  · intro tag
    rfl

/-- C2: the two literal inputs `"alice@example.com"` and
`"user.name+tag+sorting@example.co.uk"` validate as `(True, "OK")`. -/
theorem C2_literals_valid :
    validate_email (.ofString "alice@example.com".toList) = (true, "OK") ∧
    validate_email (.ofString "user.name+tag+sorting@example.co.uk".toList) =
      (true, "OK") :=
  ⟨by decide, by decide⟩

/-- C9: the over-long-domain branch is unreachable — no input ever
produces the reason `"Domain part is too long (more than 255
characters)."`, because any input reaching that check has a stripped
length of at most 254, one `'@'`, and a non-empty local part, bounding
the domain by 252 characters. -/
theorem C9_domain_too_long_unreachable :
    ∀ v : PyValue, (validate_email v).2 ≠ domainTooLongReason := by
  intro v
  cases v with
  | nonString tag => simp only [validate_email]; decide
  | ofString s =>
    rcases result_cases s with h | ⟨r, hr, _, hne⟩
    · rw [h]; decide
    · rw [hr]; exact hne

/-- C10: the boolean component of the result is `True` exactly when the
reason component is `"OK"`: the only success is `(True, "OK")` and every
failure carries a reason other than `"OK"`. -/
theorem C10_valid_iff_reason_OK :
    ∀ v : PyValue, ((validate_email v).1 = true ↔ (validate_email v).2 = "OK") := by
  intro v
  cases v with
  | nonString tag => simp only [validate_email]; decide
  | ofString s =>
    rcases result_cases s with h | ⟨r, hr, hne, _⟩
    · rw [h]; decide
    · rw [hr]
      exact iff_of_false (fun hx => Bool.noConfusion hx) hne

/-- C3 counterexample: the empty string has zero `'@'` characters, yet
the returned reason is the empty-input reason — it does not reference
the `'@'` count (it is not the `'@'`-count message and does not even
contain an `'@'`). -/
theorem C3_counterexample :
    "".toList.count '@' ≠ 1 ∧
    (validate_email (.ofString "".toList)).1 = false ∧
    (validate_email (.ofString "".toList)).2 =
      "Email is empty after stripping whitespace." ∧
    (validate_email (.ofString "".toList)).2 ≠
      "Email must contain exactly one '@' character." ∧
    '@' ∉ (validate_email (.ofString "".toList)).2.data := by
  refine ⟨by decide, by decide, by decide, by decide, by decide⟩

/-- C3 (amended): for every string whose `'@'` count is not exactly 1
the result is Invalid; and when the input additionally passes the two
earlier checks (non-empty after stripping, length at most 254), the
reason is the `'@'`-count message. -/
theorem C3_at_count (s : List Char) (h : s.count '@' ≠ 1) :
    (validate_email (.ofString s)).1 = false ∧
    (pyStrip s ≠ [] → (pyStrip s).length ≤ 254 →
      validate_email (.ofString s) =
        (false, "Email must contain exactly one '@' character.")) := by
  have hs : (pyStrip s).count '@' ≠ 1 := by
    rw [count_pyStrip s '@' atSign_not_space]
    exact h
  constructor
  · by_contra hb
    have ht := result_true_of_ne_false _ hb
    exact hs (valid_implies s ht).2.2.1
  · intro h1 h2
    simp only [validate_email]
    rw [if_neg h1, if_neg (by omega), if_pos hs]

/-- C3 witness: `"a@b@c.com"` has two `'@'` characters and is rejected
with the `'@'`-count reason. -/
theorem C3_witness :
    "a@b@c.com".toList.count '@' ≠ 1 ∧
    (validate_email (.ofString "a@b@c.com".toList)).1 = false ∧
    validate_email (.ofString "a@b@c.com".toList) =
      (false, "Email must contain exactly one '@' character.") :=
  ⟨by decide,
   (C3_at_count "a@b@c.com".toList (by decide)).1,
   (C3_at_count "a@b@c.com".toList (by decide)).2 (by decide) (by decide)⟩

/-- C4: every input whose stripped value is non-empty and longer than
254 characters is rejected with the overall-length reason, whatever
other defects it has — the length check comes before the `'@'`-count
check. -/
theorem C4_overall_length (s : List Char)
    (h1 : pyStrip s ≠ []) (h2 : 254 < (pyStrip s).length) :
    validate_email (.ofString s) =
      (false, "Email is too long (more than 254 characters).") := by
  simp only [validate_email]
  rw [if_neg h1, if_pos h2]

set_option maxRecDepth 4000 in
/-- C4 witness: 255 letters `a` (no `'@'` at all, so the `'@'`-count
defect is also present, yet the reason is the length reason). -/
theorem C4_witness :
    pyStrip (List.replicate 255 'a') ≠ [] ∧
    254 < (pyStrip (List.replicate 255 'a')).length ∧
    validate_email (.ofString (List.replicate 255 'a')) =
      (false, "Email is too long (more than 254 characters).") :=
  ⟨by decide, by decide, C4_overall_length _ (by decide) (by decide)⟩

/-- C5: for every string that passes the stripping, length, `'@'`-count,
local-non-empty, local-length and local-dot checks, and whose local part
contains a character outside the allowed set, validation fails and the
reason names the offending character (the first such character). -/
theorem C5_local_bad_char (s : List Char)
    (h1 : pyStrip s ≠ []) (h2 : (pyStrip s).length ≤ 254)
    (h3 : (pyStrip s).count '@' = 1)
    (h4 : (rsplit1 '@' (pyStrip s)).1 ≠ [])
    (h5 : (rsplit1 '@' (pyStrip s)).1.length ≤ 64)
    (h6 : headIsDot (rsplit1 '@' (pyStrip s)).1 = false)
    (h7 : lastIsDot (rsplit1 '@' (pyStrip s)).1 = false)
    (h8 : hasDoubleDot (rsplit1 '@' (pyStrip s)).1 = false)
    (h9 : ∃ c, c ∈ (rsplit1 '@' (pyStrip s)).1 ∧ localAllowed c = false) :
    (validate_email (.ofString s)).1 = false ∧
    ∃ c, c ∈ (rsplit1 '@' (pyStrip s)).1 ∧ localAllowed c = false ∧
      (validate_email (.ofString s)).2 = invalidCharMsg c := by
  have hsome : (firstBadLocalChar (rsplit1 '@' (pyStrip s)).1).isSome := by
    simp only [firstBadLocalChar]
    rw [List.find?_isSome]
    obtain ⟨c, hc1, hc2⟩ := h9
    exact ⟨c, hc1, by rw [hc2]; rfl⟩
  obtain ⟨c0, hc0⟩ := Option.isSome_iff_exists.mp hsome
  have hc1 : (rsplit1 '@' (pyStrip s)).1.find?
      (fun ch => !(localAllowed ch)) = some c0 := hc0
  have hc0mem : c0 ∈ (rsplit1 '@' (pyStrip s)).1 :=
    List.mem_of_find?_eq_some hc1
  have hc0bad : localAllowed c0 = false := by
    have hp := List.find?_some hc1
    simpa using hp
  have heval : validate_email (.ofString s) = (false, invalidCharMsg c0) := by
    simp only [validate_email]
    rw [if_neg h1, if_neg (by omega : ¬ 254 < (pyStrip s).length),
        if_neg (by omega : ¬ (pyStrip s).count '@' ≠ 1), if_neg h4,
        if_neg (by omega : ¬ 64 < (rsplit1 '@' (pyStrip s)).1.length),
        if_neg (by simp [h6, h7] :
          ¬ (headIsDot (rsplit1 '@' (pyStrip s)).1 ||
             lastIsDot (rsplit1 '@' (pyStrip s)).1) = true),
        if_neg (by simp [h8] :
          ¬ hasDoubleDot (rsplit1 '@' (pyStrip s)).1 = true)]
    simp only [hc0]
  exact ⟨by rw [heval], c0, hc0mem, hc0bad, by rw [heval]⟩

/-- C5 witness: `"a b@example.com"` is rejected and the reason names the
space character. -/
theorem C5_witness :
    (∃ c, c ∈ (rsplit1 '@' (pyStrip "a b@example.com".toList)).1 ∧
      localAllowed c = false) ∧
    (validate_email (.ofString "a b@example.com".toList)).1 = false ∧
    (validate_email (.ofString "a b@example.com".toList)).2 =
      invalidCharMsg ' ' := by
  have h := C5_local_bad_char "a b@example.com".toList
    (by decide) (by decide) (by decide) (by decide) (by decide)
    (by decide) (by decide) (by decide) ⟨' ', by decide, by decide⟩
  exact ⟨⟨' ', by decide, by decide⟩, h.1, by decide⟩

/-- C6: for every string that reaches the split into local part and
domain (non-empty after stripping, length within 254, exactly one
`'@'`), a leading dot, trailing dot or double dot in the local part or
in the domain makes validation fail. -/
theorem C6_dot_rules (s : List Char)
    (h1 : pyStrip s ≠ []) (h2 : (pyStrip s).length ≤ 254)
    (h3 : (pyStrip s).count '@' = 1)
    (h : headIsDot (rsplit1 '@' (pyStrip s)).1 = true ∨
         lastIsDot (rsplit1 '@' (pyStrip s)).1 = true ∨
         hasDoubleDot (rsplit1 '@' (pyStrip s)).1 = true ∨
         headIsDot (rsplit1 '@' (pyStrip s)).2 = true ∨
         lastIsDot (rsplit1 '@' (pyStrip s)).2 = true ∨
         hasDoubleDot (rsplit1 '@' (pyStrip s)).2 = true) :
    (validate_email (.ofString s)).1 = false := by
  by_contra hb
  have ht := result_true_of_ne_false _ hb
  obtain ⟨-, -, -, -, -, k6, k7, k8, -, -, k11, k12, k13, -, -, -⟩ :=
    valid_implies s ht
  rcases h with h | h | h | h | h | h <;> simp_all

/-- C6 witness: `"user@example..com"` has consecutive dots in the
domain and is rejected. -/
theorem C6_witness :
    hasDoubleDot (rsplit1 '@' (pyStrip "user@example..com".toList)).2 = true ∧
    (validate_email (.ofString "user@example..com".toList)).1 = false :=
  ⟨by decide, C6_dot_rules "user@example..com".toList
    (by decide) (by decide) (by decide)
    (Or.inr (Or.inr (Or.inr (Or.inr (Or.inr (by decide))))))⟩

/-- C7: for every string with exactly one `'@'` whose domain contains no
`'.'`, validation fails — the domain must split into at least two
labels. -/
theorem C7_domain_needs_dot (s : List Char)
    (h3 : (pyStrip s).count '@' = 1)
    (hd : '.' ∉ (rsplit1 '@' (pyStrip s)).2) :
    (validate_email (.ofString s)).1 = false := by
  by_contra hb
  have ht := result_true_of_ne_false _ hb
  obtain ⟨-, -, -, -, -, -, -, -, -, -, -, -, -, k14, -, -⟩ :=
    valid_implies s ht
  have hc : ((rsplit1 '@' (pyStrip s)).2).count '.' = 0 :=
    List.count_eq_zero.mpr hd
  have hl := splitOnChar_length '.' ((rsplit1 '@' (pyStrip s)).2)
  omega

/-- C7 witness: `"user@example"` has a bare domain without a dot and is
rejected. -/
theorem C7_witness :
    '.' ∉ (rsplit1 '@' (pyStrip "user@example".toList)).2 ∧
    (validate_email (.ofString "user@example".toList)).1 = false :=
  ⟨by decide, C7_domain_needs_dot "user@example".toList (by decide) (by decide)⟩

/-- C8: for every string with exactly one `'@'` whose final domain label
contains an ASCII digit or has length 1, validation fails — the TLD
must be purely alphabetic and 2 to 63 characters long. -/
theorem C8_tld_shape (s : List Char)
    (h3 : (pyStrip s).count '@' = 1)
    (h : (∃ c, c ∈ (splitOnChar '.' (rsplit1 '@' (pyStrip s)).2).getLastD [] ∧
            isDigitAscii c = true) ∨
         ((splitOnChar '.' (rsplit1 '@' (pyStrip s)).2).getLastD []).length = 1) :
    (validate_email (.ofString s)).1 = false := by
  by_contra hb
  have ht := result_true_of_ne_false _ hb
  obtain ⟨-, -, -, -, -, -, -, -, -, -, -, -, -, -, -, k16⟩ :=
    valid_implies s ht
  simp only [tldMatch, Bool.and_eq_true, decide_eq_true_eq,
    List.all_eq_true] at k16
  rcases h with ⟨c, hc1, hc2⟩ | hlen
  · have halpha : isAlphaAscii c = true := k16.2 c hc1
    simp only [isAlphaAscii, isDigitAscii, Bool.or_eq_true, Bool.and_eq_true,
      decide_eq_true_eq] at halpha hc2
    omega
  · obtain ⟨⟨k1, -⟩, -⟩ := k16
    omega

/-- C8 witness: `"user@example.c"` has a single-character TLD and is
rejected. -/
theorem C8_witness :
    ((splitOnChar '.' (rsplit1 '@' (pyStrip "user@example.c".toList)).2).getLastD []).length = 1 ∧
    (validate_email (.ofString "user@example.c".toList)).1 = false :=
  ⟨by decide, C8_tld_shape "user@example.c".toList (by decide)
    (Or.inr (by decide))⟩
